import Mathlib

/-
Verification development for the forms-capital KYC wizard
(src/pages/index.tsx). The page is a three-step Formik wizard:
step 0 collects a Ghana Card number and two card images, step 1 a
mobile-money number, step 2 a selfie; a remote verification call gates
the step-0 to step-1 transition, and a remote submission call ends the
flow. Below, the component's React state is embedded as an explicit
record, the user/network interactions as an event type, and the
handlers (handleNext, handleBack, the onSubmit callback, the axios
response continuations) as a step function on that record.
-/

namespace FormsCapital

/-- Opaque binary file reference (the DOM File object), identified by a tag. -/
abbrev FileRef := Nat

/-- The nested momo object of KycFormValues (src/pages/index.tsx lines 11-14). -/
structure Momo where
  country_code : String
  number : String
deriving Repr, DecidableEq

/-- KycFormValues (src/pages/index.tsx lines 7-16). -/
structure KycFormValues where
  number : String
  ghanaCardFront : Option FileRef
  ghanaCardBack : Option FileRef
  momo : Momo
  selfie : Option FileRef
deriving Repr, DecidableEq

/-- initialValues (src/pages/index.tsx lines 24-33). -/
def initialValues : KycFormValues :=
  { number := ""
    ghanaCardFront := none
    ghanaCardBack := none
    momo := { country_code := "+233", number := "" }
    selfie := none }

/-- The regex on line 40 of the source: GHA- followed by nine digits,
a dash, and one digit, anchored at both ends. -/
def matchesGhanaCardNumber (s : String) : Bool :=
  match s.data with
  | 'G' :: 'H' :: 'A' :: '-' :: rest =>
      (rest.take 9).length == 9 && (rest.take 9).all Char.isDigit &&
      (match rest.drop 9 with
       | ['-', d] => d.isDigit
       | _ => false)
  | _ => false

/-- The regex on line 49 of the source: six to fifteen digits, anchored. -/
def matchesMomoNumber (s : String) : Bool :=
  6 ≤ s.length && s.length ≤ 15 && s.data.all Char.isDigit

/-- Field paths of the error mapping produced by the per-step Yup schemas. -/
inductive FieldPath where
  | number
  | ghanaCardFront
  | ghanaCardBack
  | momoCountryCode
  | momoNumber
  | selfie
deriving Repr, DecidableEq

/-- validationSchema (src/pages/index.tsx lines 35-57): the per-step Yup
schema array, embedded as a function from the step index and the current
values to the field-level error mapping that formik.validateForm returns.
Step 0 checks the card number (required + pattern) and both card images
(required); step 1 checks momo.country_code (required) and momo.number
(pattern + required); step 2 checks the selfie (required). An index other
than 0, 1, 2 validates nothing. -/
def validationSchema (step : Nat) (v : KycFormValues) : List (FieldPath × String) :=
  match step with
  | 0 =>
      (if v.number = "" then [(FieldPath.number, "Ghana Card Number is required")]
       else if matchesGhanaCardNumber v.number then []
       else [(FieldPath.number, "Invalid Ghana Card Number format")]) ++
      (match v.ghanaCardFront with
       | none => [(FieldPath.ghanaCardFront, "Front image is required")]
       | some _ => []) ++
      (match v.ghanaCardBack with
       | none => [(FieldPath.ghanaCardBack, "Back image is required")]
       | some _ => [])
  | 1 =>
      (if v.momo.country_code = "" then [(FieldPath.momoCountryCode, "Country code is required")]
       else []) ++
      (if v.momo.number = "" then [(FieldPath.momoNumber, "Phone number is required")]
       else if matchesMomoNumber v.momo.number then []
       else [(FieldPath.momoNumber, "Invalid phone number")])
  | 2 =>
      (match v.selfie with
       | none => [(FieldPath.selfie, "Selfie is required")]
       | some _ => [])
  | _ => []

/-- The fields each step's schema declares (spec section 4.1). -/
def declaredFields : Nat → List FieldPath
  | 0 => [FieldPath.number, FieldPath.ghanaCardFront, FieldPath.ghanaCardBack]
  | 1 => [FieldPath.momoCountryCode, FieldPath.momoNumber]
  | 2 => [FieldPath.selfie]
  | _ => []

/-- The per-step validity rules as the claim states them: step 0 needs the
identity number to match the Ghana Card pattern and both card images
present; step 1 needs the momo country code present and the number to
match the phone pattern; step 2 needs the selfie present. Stated from the
spec's words, to be compared with validationSchema. -/
def stepRulesOk (step : Nat) (v : KycFormValues) : Bool :=
  match step with
  | 0 => matchesGhanaCardNumber v.number && v.ghanaCardFront.isSome && v.ghanaCardBack.isSome
  | 1 => !(v.momo.country_code == "") && matchesMomoNumber v.momo.number
  | 2 => v.selfie.isSome
  | _ => true

/-- JavaScript's a-or-else-b on strings: the empty string is falsy. -/
def jsOrS (s d : String) : String := if s = "" then d else s

/-- JavaScript's a-or-else-b where a may be absent (undefined) or empty. -/
def jsOrOpt (o : Option String) (d : String) : String :=
  match o with
  | none => d
  | some s => jsOrS s d

/-- Touched flags for the nested momo object. -/
structure MomoTouched where
  country_code : Bool
  number : Bool
deriving Repr, DecidableEq

/-- Formik touched flags for KycFormValues. -/
structure KycTouched where
  number : Bool
  ghanaCardFront : Bool
  ghanaCardBack : Bool
  momo : MomoTouched
  selfie : Bool
deriving Repr, DecidableEq

def noneTouched : KycTouched :=
  { number := false, ghanaCardFront := false, ghanaCardBack := false
    momo := { country_code := false, number := false }, selfie := false }

def allTouched : KycTouched :=
  { number := true, ghanaCardFront := true, ghanaCardBack := true
    momo := { country_code := true, number := true }, selfie := true }

/-- Outcome of the axios.post to /api/verify-ghana-card: either an HTTP
success whose body carries a verified flag and an optional message, or an
axios failure carrying the optional response-body message
(err.response?.data?.message) and the error's own message (err.message). -/
inductive VerifyResult where
  | ok (verified : Bool) (message : Option String)
  | err (respMessage : Option String) (errMessage : String)
deriving Repr, DecidableEq

/-- Outcome of the axios.post to /api/complete-kyc: an HTTP success whose
body optionally carries message and full_name, or an axios failure with
the optional response-body message and the error's own message. -/
inductive SubmitResult where
  | ok (message : Option String) (full_name : Option String)
  | err (respMessage : Option String) (errMessage : String)
deriving Repr, DecidableEq

/-- The interaction events of the wizard page: button clicks, input edits,
and the arrival of the two remote calls' responses. -/
inductive Event where
  | clickNext
  | verifyResp (r : VerifyResult)
  | clickBack
  | clickSubmit
  | submitResp (r : SubmitResult)
  | editNumber (s : String)
  | setFront (f : Option FileRef)
  | setBack (f : Option FileRef)
  | setMomoNumber (s : String)
  | setSelfie (f : Option FileRef)
deriving Repr, DecidableEq

/-- The KycPage component state: formik values plus the useState cells
declared on lines 170-181 of the source, together with the two in-flight
remote calls (pendingVerify holds the number sent to the verification
endpoint, pendingSubmit the values captured by the submission payload). -/
structure WizardState where
  values : KycFormValues
  currentStep : Nat
  loading : Bool
  error : String
  success : String
  ghanaCardVerified : Bool
  verifyingGhanaCard : Bool
  ghanaCardError : String
  showSuccessScreen : Bool
  fullName : String
  submittedValues : Option KycFormValues
  touched : KycTouched
  pendingVerify : Option String
  pendingSubmit : Option KycFormValues
deriving Repr, DecidableEq

/-- The component's initial state. -/
def initState : WizardState :=
  { values := initialValues
    currentStep := 0
    loading := false
    error := ""
    success := ""
    ghanaCardVerified := false
    verifyingGhanaCard := false
    ghanaCardError := ""
    showSuccessScreen := false
    fullName := ""
    submittedValues := none
    touched := noneTouched
    pendingVerify := none
    pendingSubmit := none }

/-- handleBack (src/pages/index.tsx lines 291-293):
setCurrentStep(s => Math.max(0, s - 1)). -/
def handleBack (s : WizardState) : WizardState :=
  { s with currentStep := max 0 (s.currentStep - 1) }

/-- The setTouched calls in handleNext's validation-failure branch
(src/pages/index.tsx lines 263-287): mark the current step's fields. -/
def setTouchedStep (step : Nat) (s : WizardState) : WizardState :=
  match step with
  | 0 => { s with touched :=
      { number := true, ghanaCardFront := true, ghanaCardBack := true
        momo := { country_code := false, number := false }, selfie := false } }
  | 1 => { s with touched :=
      { number := false, ghanaCardFront := false, ghanaCardBack := false
        momo := { country_code := true, number := true }, selfie := false } }
  | 2 => { s with touched :=
      { number := false, ghanaCardFront := false, ghanaCardBack := false
        momo := { country_code := false, number := false }, selfie := true } }
  | _ => s

/-- handleNext (src/pages/index.tsx lines 228-289) up to its suspension
point: validate the current step's schema; with no errors, at step 0
without a cached verified flag clear the step-0 error, set the verifying
flag and issue the verification call carrying the current number;
otherwise advance one step. With errors, mark the current step touched. -/
def handleNext (s : WizardState) : WizardState :=
  let errors := validationSchema s.currentStep s.values
  if errors.length = 0 then
    if s.currentStep = 0 ∧ s.ghanaCardVerified = false then
      { s with ghanaCardError := ""
               verifyingGhanaCard := true
               pendingVerify := some s.values.number }
    else
      { s with currentStep := s.currentStep + 1 }
  else
    setTouchedStep s.currentStep s

/-- The continuation of handleNext once the verification call resolves
(src/pages/index.tsx lines 240-258): on a body with verified true, cache
the verified flag and advance the step; on verified false surface
res.data?.message or the generic text; on an axios error surface
err.response?.data?.message, else err.message, else the generic text.
The finally block clears the verifying flag. -/
def applyVerifyResult (s : WizardState) (r : VerifyResult) : WizardState :=
  let s1 :=
    match r with
    | VerifyResult.ok true _ =>
        { s with ghanaCardVerified := true, currentStep := s.currentStep + 1 }
    | VerifyResult.ok false m =>
        { s with ghanaCardError := jsOrOpt m "Ghana Card verification failed." }
    | VerifyResult.err rm em =>
        { s with ghanaCardError := jsOrOpt rm (jsOrS em "Ghana Card verification failed.") }
  { s1 with verifyingGhanaCard := false, pendingVerify := none }

/-- The opening of the formik onSubmit callback (src/pages/index.tsx lines
193-207): set loading, clear the error and success texts, build the
payload from the current values and issue the submission call. -/
def startSubmit (s : WizardState) : WizardState :=
  { s with loading := true, error := "", success := ""
           pendingSubmit := some s.values }

/-- formik.handleSubmit: mark every field touched, validate the current
step's schema (at step 2 that is the selfie schema) and run onSubmit only
when the errors object is empty. -/
def handleSubmit (s : WizardState) : WizardState :=
  let s0 := { s with touched := allTouched }
  let errors := validationSchema s0.currentStep s0.values
  if errors.length = 0 then startSubmit s0 else s0

/-- The continuation of onSubmit once the submission call resolves
(src/pages/index.tsx lines 208-224): on success set fullName from
res?.data?.full_name or the empty string, success from res.data.message
or the fallback, store the submitted values and show the success screen;
on an axios error set the error text from err.response?.data?.message,
else err.message, else the fallback. The finally block clears loading. -/
def applySubmitResult (s : WizardState) (vals : KycFormValues) (r : SubmitResult) : WizardState :=
  let s1 :=
    match r with
    | SubmitResult.ok msg fn =>
        { s with fullName := jsOrOpt fn ""
                 success := jsOrOpt msg "KYC Completed!"
                 submittedValues := some vals
                 showSuccessScreen := true }
    | SubmitResult.err rm em =>
        { s with error := jsOrOpt rm (jsOrS em "Failed to complete KYC") }
  { s1 with loading := false, pendingSubmit := none }

/-- One step of the wizard: each event applies its handler when the
corresponding control is rendered and enabled (the Continue button exists
below step 2 and is disabled while loading or verifying; the Back button
is disabled while loading; the step-0 inputs exist only at step 0, the
momo input at step 1, the selfie input at step 2; no input is rendered on
the success screen), and is a no-op otherwise. Response events apply the
await continuation of the matching in-flight call. -/
def stepFn (s : WizardState) (e : Event) : WizardState :=
  match e with
  | Event.clickNext =>
      if s.showSuccessScreen = false ∧ s.currentStep < 2 ∧ s.loading = false ∧
         s.verifyingGhanaCard = false then
        handleNext s
      else s
  | Event.verifyResp r =>
      match s.pendingVerify with
      | some _ => applyVerifyResult s r
      | none => s
  | Event.clickBack =>
      if s.showSuccessScreen = false ∧ s.loading = false then handleBack s else s
  | Event.clickSubmit =>
      if s.showSuccessScreen = false ∧ s.currentStep = 2 ∧ s.loading = false then
        handleSubmit s
      else s
  | Event.submitResp r =>
      match s.pendingSubmit with
      | some vals => applySubmitResult s vals r
      | none => s
  | Event.editNumber n =>
      if s.showSuccessScreen = false ∧ s.currentStep = 0 then
        { s with values := { s.values with number := n }
                 ghanaCardVerified := false
                 ghanaCardError := "" }
      else s
  | Event.setFront f =>
      if s.showSuccessScreen = false ∧ s.currentStep = 0 then
        { s with values := { s.values with ghanaCardFront := f } }
      else s
  | Event.setBack f =>
      if s.showSuccessScreen = false ∧ s.currentStep = 0 then
        { s with values := { s.values with ghanaCardBack := f } }
      else s
  | Event.setMomoNumber n =>
      if s.showSuccessScreen = false ∧ s.currentStep = 1 then
        { s with values := { s.values with momo := { s.values.momo with number := n } } }
      else s
  | Event.setSelfie f =>
      if s.showSuccessScreen = false ∧ s.currentStep = 2 then
        { s with values := { s.values with selfie := f } }
      else s

/-- Run a list of events from the initial component state. -/
def runTrace (es : List Event) : WizardState :=
  es.foldl stepFn initState

/-- The VerificationState variant of the spec, derived from the component
state cells that realise it: verifyingGhanaCard is Pending,
ghanaCardVerified is Verified, a non-empty ghanaCardError is Failed, and
otherwise the gate has not started. -/
inductive VState where
  | NotStarted
  | Pending
  | Verified
  | Failed (message : String)
deriving Repr, DecidableEq

def verificationState (s : WizardState) : VState :=
  if s.verifyingGhanaCard then VState.Pending
  else if s.ghanaCardVerified then VState.Verified
  else if s.ghanaCardError = "" then VState.NotStarted
  else VState.Failed s.ghanaCardError

/-- The SubmissionState variant of the spec, derived from the component
state cells that realise it: loading is Pending, the success screen is
Succeeded, a non-empty error text is Failed, otherwise Idle. -/
inductive SubState where
  | Idle
  | Pending
  | Succeeded
  | Failed (message : String)
deriving Repr, DecidableEq

def submissionState (s : WizardState) : SubState :=
  if s.loading then SubState.Pending
  else if s.showSuccessScreen then SubState.Succeeded
  else if s.error = "" then SubState.Idle
  else SubState.Failed s.error

/-
File Preview Manager: the useFilePreview hook (src/pages/index.tsx lines
73-89). Its useEffect, keyed on the file, first runs the cleanup of the
previous effect (revoking the URL that effect created, when it created
one) and then either clears the preview (null file) or creates a fresh
object URL for the new file. Unmount runs the last cleanup. The slot
below records the current preview handle, a fresh-handle supply
(URL.createObjectURL returns a new URL on every call), and the ledger of
every handle created and every handle revoked, in order.
-/

/-- The state of one useFilePreview slot. -/
structure PreviewSlot where
  preview : Option Nat
  nextId : Nat
  created : List Nat
  revoked : List Nat
deriving Repr, DecidableEq

/-- A freshly mounted slot: no preview, nothing created or revoked. -/
def initSlot : PreviewSlot :=
  { preview := none, nextId := 0, created := [], revoked := [] }

/-- One run of the useFilePreview effect for a new file value: the
previous effect's cleanup revokes the handle it created, then a null file
yields no handle while a present file yields a fresh one. -/
def runPreviewEffect (sl : PreviewSlot) (file : Option FileRef) : PreviewSlot :=
  let cleaned : PreviewSlot :=
    { sl with revoked := sl.revoked ++ sl.preview.toList, preview := none }
  match file with
  | none => cleaned
  | some _ =>
      { cleaned with preview := some sl.nextId
                     nextId := sl.nextId + 1
                     created := sl.created ++ [sl.nextId] }

/-- Unmount/teardown: the final cleanup revokes the current handle. -/
def previewTeardown (sl : PreviewSlot) : PreviewSlot :=
  { sl with revoked := sl.revoked ++ sl.preview.toList, preview := none }

/-- The three independent preview slots the page instantiates (front
image, back image, selfie), one hook instance each. -/
structure PreviewSys where
  front : PreviewSlot
  back : PreviewSlot
  selfie : PreviewSlot
deriving Repr, DecidableEq

def updFront (sys : PreviewSys) (f : Option FileRef) : PreviewSys :=
  { sys with front := runPreviewEffect sys.front f }

def updBack (sys : PreviewSys) (f : Option FileRef) : PreviewSys :=
  { sys with back := runPreviewEffect sys.back f }

def updSelfie (sys : PreviewSys) (f : Option FileRef) : PreviewSys :=
  { sys with selfie := runPreviewEffect sys.selfie f }

/-- Slot bookkeeping invariant: the handles created so far are exactly the
revoked ones followed by the currently held one, and the supply counter
has never reused a handle. -/
def SlotInv (sl : PreviewSlot) : Prop :=
  sl.created = sl.revoked ++ sl.preview.toList ∧ sl.created = List.range sl.nextId

/-- Events that edit a step-0 field (the identity number or either card
image); these inputs stay enabled while a verification call is in flight. -/
def isStep0Edit : Event → Bool
  | Event.editNumber _ => true
  | Event.setFront _ => true
  | Event.setBack _ => true
  | _ => false

/-- Events that edit a field of the live FormValues. -/
def isEditEvent : Event → Bool
  | Event.editNumber _ => true
  | Event.setFront _ => true
  | Event.setBack _ => true
  | Event.setMomoNumber _ => true
  | Event.setSelfie _ => true
  | _ => false

/-- States reachable from the initial state by event sequences that never
edit a step-0 field while a verification call is in flight (the quiescent
discipline under which the stale-response race of applyVerifyResult
cannot fire). -/
inductive ReachQ : WizardState → Prop where
  | init : ReachQ initState
  | next (s : WizardState) (e : Event) (hs : ReachQ s)
      (hq : isStep0Edit e = true → s.verifyingGhanaCard = false) :
      ReachQ (stepFn s e)

/-- The step-gating invariant of ReachQ states: the verifying flag mirrors
the in-flight call, an in-flight call was issued at step 0 from values
passing step-0 validation, steps already passed stay valid, the step
index is bounded, loading mirrors the in-flight submission, and any
in-flight submission payload passed all three validators. -/
def InvQ (s : WizardState) : Prop :=
  s.verifyingGhanaCard = s.pendingVerify.isSome ∧
  (∀ n, s.pendingVerify = some n →
    s.currentStep = 0 ∧ validationSchema 0 s.values = []) ∧
  (1 ≤ s.currentStep → validationSchema 0 s.values = []) ∧
  (2 ≤ s.currentStep → validationSchema 1 s.values = []) ∧
  s.currentStep ≤ 2 ∧
  s.loading = s.pendingSubmit.isSome ∧
  (∀ p, s.pendingSubmit = some p →
    validationSchema 0 p = [] ∧ validationSchema 1 p = [] ∧ validationSchema 2 p = [])

/-- The slot state after a sequence of file assignments to one preview
slot, starting from a fresh mount. -/
def slotAfter (files : List (Option FileRef)) : PreviewSlot :=
  files.foldl runPreviewEffect initSlot

/-- A fully valid set of form values used as a concrete test vector. -/
def validValues : KycFormValues :=
  { number := "GHA-123456789-1"
    ghanaCardFront := some 1
    ghanaCardBack := some 2
    momo := { country_code := "+233", number := "244000000" }
    selfie := some 3 }

/-- A step-0 state holding valid values with a cached verified outcome. -/
def cachedState : WizardState :=
  { initState with values := validValues, ghanaCardVerified := true }

/-- A step-0 state holding valid values, no cached outcome, ready for the
verification gate. -/
def readyState : WizardState :=
  { initState with values := validValues }

/-- A step-0 state with a verification call in flight for the current
number. -/
def pendingVerifyState : WizardState :=
  { initState with values := validValues
                   verifyingGhanaCard := true
                   pendingVerify := some "GHA-123456789-1" }

/-- A step-2 state with a submission call in flight carrying valid values. -/
def pendingSubmitState : WizardState :=
  { initState with values := validValues
                   currentStep := 2
                   loading := true
                   pendingSubmit := some validValues }

/-- Trace for the transport-fault behaviour of the verification gate:
enter a valid number and both card images, press Continue, then let the
call fail at transport level with no response body, err.message being
the axios text. -/
def verifyFaultTrace : List Event :=
  [Event.editNumber "GHA-123456789-1", Event.setFront (some 1), Event.setBack (some 2),
   Event.clickNext, Event.verifyResp (VerifyResult.err none "Network Error")]

/-- Prefix of the stale-response trace: enter valid step-0 values and
press Continue, so a verification call for GHA-123456789-1 is in flight. -/
def staleIssueTrace : List Event :=
  [Event.editNumber "GHA-123456789-1", Event.setFront (some 1), Event.setBack (some 2),
   Event.clickNext]

/-- Full stale-response trace: while the call for GHA-123456789-1 is in
flight, change the number to GHA-987654321-0, then let the stale call
resolve with verified true. -/
def staleFullTrace : List Event :=
  staleIssueTrace ++
  [Event.editNumber "GHA-987654321-0", Event.verifyResp (VerifyResult.ok true none)]

/-- Race trace reaching submission with invalid step-0 values: while the
verification call is in flight, change the number to a value failing the
pattern; the stale success still advances the wizard, which is then
completed and submitted. -/
def raceSubmitTrace : List Event :=
  [Event.editNumber "GHA-123456789-1", Event.setFront (some 1), Event.setBack (some 2),
   Event.clickNext, Event.editNumber "BAD",
   Event.verifyResp (VerifyResult.ok true none),
   Event.setMomoNumber "244000000", Event.clickNext,
   Event.setSelfie (some 3), Event.clickSubmit]

/-- Trace for the transport-fault behaviour of submission: complete the
wizard with valid values, submit, then let the call fail at transport
level with no response body, err.message being the axios text. -/
def submitFaultTrace : List Event :=
  [Event.editNumber "GHA-123456789-1", Event.setFront (some 1), Event.setBack (some 2),
   Event.clickNext, Event.verifyResp (VerifyResult.ok true none),
   Event.setMomoNumber "244000000", Event.clickNext,
   Event.setSelfie (some 3), Event.clickSubmit,
   Event.submitResp (SubmitResult.err none "Network Error")]

/-
Helper lemmas about the Field Validation Engine.
-/

lemma vs0_empty_iff (v : KycFormValues) :
    validationSchema 0 v = [] ↔ stepRulesOk 0 v = true := by
  have hm : v.number = "" → matchesGhanaCardNumber v.number = false := by
    intro h; rw [h]; decide
  by_cases h1 : v.number = "" <;>
    by_cases h2 : matchesGhanaCardNumber v.number = true <;>
      rcases hf : v.ghanaCardFront with _ | f <;>
        rcases hb : v.ghanaCardBack with _ | b <;>
          simp_all [validationSchema, stepRulesOk]

lemma vs1_empty_iff (v : KycFormValues) :
    validationSchema 1 v = [] ↔ stepRulesOk 1 v = true := by
  by_cases h1 : v.momo.country_code = "" <;>
    by_cases h2 : v.momo.number = "" <;>
      by_cases h3 : matchesMomoNumber v.momo.number = true <;>
        simp_all [validationSchema, stepRulesOk] <;>
          exact absurd h3 (by decide)

lemma vs2_empty_iff (v : KycFormValues) :
    validationSchema 2 v = [] ↔ stepRulesOk 2 v = true := by
  rcases hs : v.selfie with _ | f <;> simp_all [validationSchema, stepRulesOk]

lemma vs0_keys (v : KycFormValues) (p : FieldPath) (m : String)
    (hpm : (p, m) ∈ validationSchema 0 v) : p ∈ declaredFields 0 := by
  by_cases h1 : v.number = "" <;>
    by_cases h2 : matchesGhanaCardNumber v.number = true <;>
      rcases hf : v.ghanaCardFront with _ | f <;>
        rcases hb : v.ghanaCardBack with _ | b <;>
          simp_all [validationSchema, declaredFields] <;>
            rcases hpm with ⟨rfl, -⟩ | ⟨rfl, -⟩ | ⟨rfl, -⟩ <;> simp

lemma vs1_keys (v : KycFormValues) (p : FieldPath) (m : String)
    (hpm : (p, m) ∈ validationSchema 1 v) : p ∈ declaredFields 1 := by
  by_cases h1 : v.momo.country_code = "" <;>
    by_cases h2 : v.momo.number = "" <;>
      by_cases h3 : matchesMomoNumber v.momo.number = true <;>
        simp_all [validationSchema, declaredFields] <;>
          rcases hpm with ⟨rfl, -⟩ | ⟨rfl, -⟩ <;> simp

lemma vs2_keys (v : KycFormValues) (p : FieldPath) (m : String)
    (hpm : (p, m) ∈ validationSchema 2 v) : p ∈ declaredFields 2 := by
  rcases hs : v.selfie with _ | f <;>
    simp_all [validationSchema, declaredFields]

/-- C7: the Field Validation Engine returns an empty mapping exactly when
the named step's rules all hold (step 0: identity number matching the
Ghana Card pattern plus both card images present; step 1: momo country
code present and number matching the phone pattern; step 2: selfie
present); on any violation the mapping is non-empty and its keys are a
subset of that step's declared fields, so fields of other steps never
appear. -/
theorem c7_validation_engine (v : KycFormValues) (step : Nat) (hstep : step < 3) :
    (stepRulesOk step v = true → validationSchema step v = []) ∧
    (stepRulesOk step v = false → validationSchema step v ≠ []) ∧
    (∀ p m, (p, m) ∈ validationSchema step v → p ∈ declaredFields step) := by
  interval_cases step
  · refine ⟨(vs0_empty_iff v).mpr, ?_, vs0_keys v⟩
    intro h hc
    rw [(vs0_empty_iff v).mp hc] at h
    cases h
  · refine ⟨(vs1_empty_iff v).mpr, ?_, vs1_keys v⟩
    intro h hc
    rw [(vs1_empty_iff v).mp hc] at h
    cases h
  · refine ⟨(vs2_empty_iff v).mpr, ?_, vs2_keys v⟩
    intro h hc
    rw [(vs2_empty_iff v).mp hc] at h
    cases h

/-- Witness for C7 at concrete inputs: the initial values violate the
step-0 rules and indeed yield a non-empty mapping, while the valid test
vector yields an empty one. -/
theorem c7_validation_engine_witness :
    validationSchema 0 initialValues ≠ [] ∧ validationSchema 0 validValues = [] :=
  ⟨(c7_validation_engine initialValues 0 (by decide)).2.1 (by decide),
   (c7_validation_engine validValues 0 (by decide)).1 (by decide)⟩

/-
Helper lemmas about the wizard step function.
-/

lemma vs0_ignores_momo (v : KycFormValues) (m : Momo) :
    validationSchema 0 { v with momo := m } = validationSchema 0 v := rfl

lemma vs0_ignores_selfie (v : KycFormValues) (f : Option FileRef) :
    validationSchema 0 { v with selfie := f } = validationSchema 0 v := rfl

lemma vs1_ignores_selfie (v : KycFormValues) (f : Option FileRef) :
    validationSchema 1 { v with selfie := f } = validationSchema 1 v := rfl

lemma setTouchedStep_fields (k : Nat) (s : WizardState) :
    (setTouchedStep k s).values = s.values ∧
    (setTouchedStep k s).currentStep = s.currentStep ∧
    (setTouchedStep k s).loading = s.loading ∧
    (setTouchedStep k s).verifyingGhanaCard = s.verifyingGhanaCard ∧
    (setTouchedStep k s).pendingVerify = s.pendingVerify ∧
    (setTouchedStep k s).pendingSubmit = s.pendingSubmit ∧
    (setTouchedStep k s).showSuccessScreen = s.showSuccessScreen ∧
    (setTouchedStep k s).ghanaCardVerified = s.ghanaCardVerified ∧
    (setTouchedStep k s).submittedValues = s.submittedValues := by
  rcases k with _ | _ | _ | k <;> simp [setTouchedStep]

/-- C9: with the Back control available (the submission call not pending
and the wizard not on the result screen), pressing Back applies
handleBack, which moves Step(n) to Step(n-1) for n greater than 0 and is
a no-op at Step0; it is permitted regardless of validation outcomes or of
the verification flags, leaves every field of FormValues unchanged, marks
nothing touched, and neither consults the validators nor issues or caches
a verification call. -/
theorem c9_back_transition (s : WizardState)
    (hl : s.loading = false) (hss : s.showSuccessScreen = false) :
    stepFn s Event.clickBack = { s with currentStep := max 0 (s.currentStep - 1) } ∧
    (stepFn s Event.clickBack).values = s.values ∧
    (stepFn s Event.clickBack).touched = s.touched ∧
    (stepFn s Event.clickBack).pendingVerify = s.pendingVerify ∧
    (stepFn s Event.clickBack).ghanaCardVerified = s.ghanaCardVerified ∧
    (stepFn s Event.clickBack).verifyingGhanaCard = s.verifyingGhanaCard ∧
    (stepFn s Event.clickBack).ghanaCardError = s.ghanaCardError ∧
    (0 < s.currentStep → (stepFn s Event.clickBack).currentStep = s.currentStep - 1) ∧
    (s.currentStep = 0 → stepFn s Event.clickBack = s) := by
  have hstep : stepFn s Event.clickBack = handleBack s := by
    simp [stepFn, hl, hss]
  refine ⟨?_, ?_, ?_, ?_, ?_, ?_, ?_, ?_, ?_⟩ <;> rw [hstep] <;> simp [handleBack]
  intro h
  have h1 : s.currentStep - 1 = s.currentStep := by omega
  rw [h1]

/-- Witness for C9 at step 2 and at step 0 of concrete states. -/
theorem c9_back_transition_witness :
    (stepFn { initState with currentStep := 2 } Event.clickBack).currentStep = 1 ∧
    stepFn initState Event.clickBack = initState :=
  ⟨(c9_back_transition { initState with currentStep := 2 } rfl rfl).2.2.2.2.2.2.2.1
      (by decide),
   (c9_back_transition initState rfl rfl).2.2.2.2.2.2.2.2 rfl⟩

/-- C4: the values captured by a successful submission are insulated from
later edits of the live FormValues: in the model, Formik state updates
replace the values record while submittedValues keeps the captured copy,
so every field-edit event leaves the stored snapshot (identity number,
momo fields, and the three file references) exactly as captured. -/
theorem c4_snapshot_immutable (s : WizardState) (snap : KycFormValues) (e : Event)
    (hsub : s.submittedValues = some snap) (he : isEditEvent e = true) :
    (stepFn s e).submittedValues = some snap := by
  cases e <;> simp only [isEditEvent] at he <;> try exact absurd he (by decide)
  all_goals
    simp only [stepFn]
  all_goals
    split <;> simp [hsub]

/-- Witness for C4: a state holding a snapshot of the valid test vector
keeps it across an edit of the live identity number. -/
theorem c4_snapshot_immutable_witness :
    (stepFn { initState with submittedValues := some validValues }
      (Event.editNumber "GHA-000000000-0")).submittedValues = some validValues :=
  c4_snapshot_immutable { initState with submittedValues := some validValues }
    validValues (Event.editNumber "GHA-000000000-0") rfl rfl

/-- C10: when the submission call succeeds, missing optional response
fields degrade to defaults: a body without full_name leaves the result
view's full name empty, and a body without message shows the fallback
text KYC Completed!. -/
theorem c10_response_defaults (s : WizardState) (vals : KycFormValues)
    (msg fn : Option String) (hp : s.pendingSubmit = some vals) :
    (fn = none →
      (stepFn s (Event.submitResp (SubmitResult.ok msg fn))).fullName = "") ∧
    (msg = none →
      (stepFn s (Event.submitResp (SubmitResult.ok msg fn))).success = "KYC Completed!") := by
  constructor <;> rintro rfl <;> simp [stepFn, hp, applySubmitResult, jsOrOpt]

/-- Witness for C10: a pending submission resolving with an empty body
yields the empty full name and the fallback success message. -/
theorem c10_response_defaults_witness :
    (stepFn pendingSubmitState
      (Event.submitResp (SubmitResult.ok none none))).fullName = "" ∧
    (stepFn pendingSubmitState
      (Event.submitResp (SubmitResult.ok none none))).success = "KYC Completed!" :=
  ⟨(c10_response_defaults pendingSubmitState validValues none none rfl).1 rfl,
   (c10_response_defaults pendingSubmitState validValues none none rfl).2 rfl⟩

/-
Helper lemmas about the File Preview Manager.
-/

lemma slotInv_init : SlotInv initSlot := ⟨rfl, rfl⟩

lemma slotInv_step (sl : PreviewSlot) (f : Option FileRef) (h : SlotInv sl) :
    SlotInv (runPreviewEffect sl f) := by
  obtain ⟨h1, h2⟩ := h
  cases f with
  | none =>
      exact ⟨by simp [runPreviewEffect, h1], by simp [runPreviewEffect, h2]⟩
  | some g =>
      refine ⟨?_, ?_⟩
      · simp [runPreviewEffect, h1]
      · simp [runPreviewEffect, h2, List.range_succ]

lemma slotInv_after (files : List (Option FileRef)) : SlotInv (slotAfter files) := by
  have key : ∀ (l : List (Option FileRef)) (sl : PreviewSlot), SlotInv sl →
      SlotInv (l.foldl runPreviewEffect sl) := by
    intro l
    induction l with
    | nil => exact fun sl h => h
    | cons a t ih => exact fun sl h => ih _ (slotInv_step sl a h)
  exact key files initSlot slotInv_init

lemma slot_no_dangling (sl : PreviewSlot) (h : SlotInv sl) (hid : Nat)
    (hp : sl.preview = some hid) : hid ∉ sl.revoked := by
  obtain ⟨h1, h2⟩ := h
  have hnd : sl.created.Nodup := by rw [h2]; exact List.nodup_range _
  rw [h1, hp] at hnd
  simp only [Option.toList_some] at hnd
  rw [List.nodup_append] at hnd
  intro hmem
  exact hnd.2.2 hmem (by simp)

/-- C8: over any sequence of FileRef assignments to a slot, the
useFilePreview effect revokes exactly the handle it previously created
for that slot upon creating a new one, revokes the current handle on
teardown so that every created handle ends up revoked exactly once, a
null FileRef yields no handle while still releasing the existing one, the
currently held handle is never one already revoked, and updating one
slot's hook instance leaves the other slots untouched. -/
theorem c8_preview_lifecycle (files : List (Option FileRef)) (f : FileRef)
    (sys : PreviewSys) :
    ((runPreviewEffect (slotAfter files) (some f)).revoked
        = (slotAfter files).revoked ++ (slotAfter files).preview.toList) ∧
    ((runPreviewEffect (slotAfter files) none).preview = none ∧
     (runPreviewEffect (slotAfter files) none).revoked
        = (slotAfter files).revoked ++ (slotAfter files).preview.toList) ∧
    ((previewTeardown (slotAfter files)).preview = none ∧
     (previewTeardown (slotAfter files)).revoked
        = (previewTeardown (slotAfter files)).created) ∧
    (∀ hid, (slotAfter files).preview = some hid →
        hid ∉ (slotAfter files).revoked) ∧
    ((updFront sys (some f)).back = sys.back ∧
     (updFront sys (some f)).selfie = sys.selfie ∧
     (updBack sys (some f)).front = sys.front ∧
     (updBack sys (some f)).selfie = sys.selfie ∧
     (updSelfie sys (some f)).front = sys.front ∧
     (updSelfie sys (some f)).back = sys.back) := by
  have hinv := slotInv_after files
  refine ⟨?_, ⟨?_, ?_⟩, ⟨?_, ?_⟩, ?_, ?_, ?_, ?_, ?_, ?_, ?_⟩
  · simp [runPreviewEffect]
  · simp [runPreviewEffect]
  · simp [runPreviewEffect]
  · simp [previewTeardown]
  · simp [previewTeardown]
    exact hinv.1.symm
  · exact slot_no_dangling (slotAfter files) hinv
  all_goals simp [updFront, updBack, updSelfie]

/-- Witness for C8 at a concrete assignment sequence: assign a file, then
null, then another file; the handle of the third assignment is live and
was never revoked, and after teardown the revoked ledger equals the
created ledger. -/
theorem c8_preview_lifecycle_witness :
    (slotAfter [some 5, none, some 7]).preview = some 1 ∧
    (1 : Nat) ∉ (slotAfter [some 5, none, some 7]).revoked ∧
    (previewTeardown (slotAfter [some 5, none, some 7])).revoked
      = (previewTeardown (slotAfter [some 5, none, some 7])).created :=
  ⟨by decide,
   (c8_preview_lifecycle [some 5, none, some 7] 9
      ⟨initSlot, initSlot, initSlot⟩).2.2.2.1 1 (by decide),
   (c8_preview_lifecycle [some 5, none, some 7] 9
      ⟨initSlot, initSlot, initSlot⟩).2.2.1.2⟩

lemma jsOrS_ne_empty (s d : String) (hd : d ≠ "") : jsOrS s d ≠ "" := by
  unfold jsOrS
  split_ifs with h
  · exact hd
  · exact h

lemma jsOrOpt_ne_empty (o : Option String) (d : String) (hd : d ≠ "") :
    jsOrOpt o d ≠ "" := by
  cases o with
  | none => exact hd
  | some s => exact jsOrS_ne_empty s d hd

/-- Counterexample to C1 as stated: a verification call that fails at
transport level with no response body (respMessage none) surfaces the
error object's own text (here the axios text Network Error), not the
generic message (which in handleNext is the constant Ghana Card
verification failed.); the machine does remain at Step0. -/
theorem c1_counterexample :
    (runTrace verifyFaultTrace).currentStep = 0 ∧
    (runTrace verifyFaultTrace).ghanaCardError = "Network Error" ∧
    "Network Error" ≠ "Ghana Card verification failed." := by decide

/-- C1 as amended: for values passing step-0 validation with no cached
verified outcome, pressing Continue issues exactly one verification call
carrying the current identity number (the in-flight slot goes from none
to that number and the step does not move); a response with verified true
transitions the machine to Step1; a response with verified false keeps it
at Step0 and surfaces the response-body message when present and
non-empty, otherwise the generic message; a transport-level failure keeps
it at Step0 and surfaces the response-body message when present and
non-empty, otherwise the error's own message when non-empty, and only
then the generic message. -/
theorem c1_verification_gate (s : WizardState)
    (hstep : s.currentStep = 0) (hv : s.ghanaCardVerified = false)
    (hss : s.showSuccessScreen = false) (hl : s.loading = false)
    (hvg : s.verifyingGhanaCard = false) (hpv : s.pendingVerify = none)
    (hval : validationSchema 0 s.values = []) :
    ((stepFn s Event.clickNext).pendingVerify = some s.values.number ∧
     (stepFn s Event.clickNext).verifyingGhanaCard = true ∧
     (stepFn s Event.clickNext).currentStep = 0 ∧
     (stepFn s Event.clickNext).values = s.values) ∧
    (∀ m, (stepFn (stepFn s Event.clickNext)
        (Event.verifyResp (VerifyResult.ok true m))).currentStep = 1) ∧
    (∀ m,
      (stepFn (stepFn s Event.clickNext)
        (Event.verifyResp (VerifyResult.ok false m))).currentStep = 0 ∧
      (stepFn (stepFn s Event.clickNext)
        (Event.verifyResp (VerifyResult.ok false m))).ghanaCardError
          = jsOrOpt m "Ghana Card verification failed.") ∧
    (∀ rm em,
      (stepFn (stepFn s Event.clickNext)
        (Event.verifyResp (VerifyResult.err rm em))).currentStep = 0 ∧
      (stepFn (stepFn s Event.clickNext)
        (Event.verifyResp (VerifyResult.err rm em))).ghanaCardError
          = jsOrOpt rm (jsOrS em "Ghana Card verification failed.")) := by
  have h1 : stepFn s Event.clickNext =
      { s with ghanaCardError := ""
               verifyingGhanaCard := true
               pendingVerify := some s.values.number } := by
    simp [stepFn, hss, hl, hvg, hstep, handleNext, hval, hv]
  refine ⟨by rw [h1]; simp [hstep], ?_, ?_, ?_⟩
  · intro m
    rw [h1]
    simp [stepFn, applyVerifyResult, hstep]
  · intro m
    rw [h1]
    simp [stepFn, applyVerifyResult, hstep]
  · intro rm em
    rw [h1]
    simp [stepFn, applyVerifyResult, hstep]

/-- Witness for C1 at the concrete ready state: Continue issues the call
for GHA-123456789-1; a verified-true response moves to step 1; a
verified-false response with body message Not found surfaces Not found. -/
theorem c1_verification_gate_witness :
    (stepFn readyState Event.clickNext).pendingVerify = some "GHA-123456789-1" ∧
    (stepFn (stepFn readyState Event.clickNext)
      (Event.verifyResp (VerifyResult.ok true none))).currentStep = 1 ∧
    (stepFn (stepFn readyState Event.clickNext)
      (Event.verifyResp (VerifyResult.ok false (some "Not found")))).ghanaCardError
        = "Not found" := by
  have h := c1_verification_gate readyState rfl rfl rfl rfl rfl rfl (by decide)
  refine ⟨h.1.1, h.2.1 none, ?_⟩
  rw [(h.2.2.1 (some "Not found")).2]
  decide

/-- C2: verification success is cached per unchanged identity number, and
only success. With a cached verified outcome, Continue at Step0 with
valid step-0 fields transitions to Step1 without issuing any call; an
edit of the identity number after a prior Verified or Failed outcome
resets the VerificationState to NotStarted and clears the cached flag, so
a subsequent Continue (with valid fields) issues the call again, carrying
the edited number; and a verified-false response never sets the cached
flag, so a Failed outcome is never cached. -/
theorem c2_verification_cache :
    (∀ s : WizardState, s.currentStep = 0 → s.ghanaCardVerified = true →
      s.showSuccessScreen = false → s.loading = false → s.verifyingGhanaCard = false →
      s.pendingVerify = none → validationSchema 0 s.values = [] →
      (stepFn s Event.clickNext).currentStep = 1 ∧
      (stepFn s Event.clickNext).pendingVerify = none) ∧
    (∀ (s : WizardState) (n : String), s.currentStep = 0 → s.showSuccessScreen = false →
      s.loading = false →
      (verificationState s = VState.Verified ∨ ∃ m, verificationState s = VState.Failed m) →
      verificationState (stepFn s (Event.editNumber n)) = VState.NotStarted ∧
      (stepFn s (Event.editNumber n)).ghanaCardVerified = false ∧
      (validationSchema 0 (stepFn s (Event.editNumber n)).values = [] →
        (stepFn (stepFn s (Event.editNumber n)) Event.clickNext).pendingVerify = some n)) ∧
    (∀ (s : WizardState) (m : Option String) (n : String), s.pendingVerify = some n →
      s.ghanaCardVerified = false →
      (stepFn s (Event.verifyResp (VerifyResult.ok false m))).ghanaCardVerified = false ∧
      verificationState (stepFn s (Event.verifyResp (VerifyResult.ok false m)))
        ≠ VState.Verified) := by
  refine ⟨?_, ?_, ?_⟩
  · intro s hstep hv hss hl hvg hpv hval
    have h1 : stepFn s Event.clickNext = { s with currentStep := s.currentStep + 1 } := by
      simp [stepFn, hss, hl, hvg, hstep, handleNext, hval, hv]
    rw [h1]
    simp [hstep, hpv]
  · intro s n hstep hss hl hout
    have hvg : s.verifyingGhanaCard = false := by
      cases hb : s.verifyingGhanaCard with
      | false => rfl
      | true => rcases hout with h | ⟨m, h⟩ <;> simp [verificationState, hb] at h
    have h2 : stepFn s (Event.editNumber n) =
        { s with values := { s.values with number := n }
                 ghanaCardVerified := false
                 ghanaCardError := "" } := by
      simp [stepFn, hss, hstep]
    refine ⟨?_, ?_, ?_⟩
    · rw [h2]
      simp [verificationState, hvg]
    · rw [h2]
    · intro hval
      rw [h2] at hval ⊢
      simp [stepFn, hss, hl, hvg, hstep, handleNext, hval]
  · intro s m n hp hv
    have h3 : stepFn s (Event.verifyResp (VerifyResult.ok false m)) =
        { s with ghanaCardError := jsOrOpt m "Ghana Card verification failed."
                 verifyingGhanaCard := false
                 pendingVerify := none } := by
      simp [stepFn, hp, applyVerifyResult]
    rw [h3]
    refine ⟨hv, ?_⟩
    simp [verificationState, hv]
    split_ifs <;> simp

/-- Witness for C2 at concrete states: the cached state skips the call
and advances; editing its number resets the state to NotStarted and a
further Continue re-issues the call for the new number; a failed response
to the in-flight state leaves the cached flag clear. -/
theorem c2_verification_cache_witness :
    (stepFn cachedState Event.clickNext).currentStep = 1 ∧
    (stepFn cachedState Event.clickNext).pendingVerify = none ∧
    verificationState (stepFn cachedState (Event.editNumber "GHA-987654321-0"))
      = VState.NotStarted ∧
    (stepFn (stepFn cachedState (Event.editNumber "GHA-987654321-0"))
      Event.clickNext).pendingVerify = some "GHA-987654321-0" ∧
    (stepFn pendingVerifyState
      (Event.verifyResp (VerifyResult.ok false (some "Not found")))).ghanaCardVerified
        = false := by
  have h1 := (c2_verification_cache.1) cachedState rfl rfl rfl rfl rfl rfl (by decide)
  have h2 := (c2_verification_cache.2.1) cachedState "GHA-987654321-0" rfl rfl rfl
    (Or.inl (by decide))
  have h3 := (c2_verification_cache.2.2) pendingVerifyState (some "Not found")
    "GHA-123456789-1" rfl rfl
  exact ⟨h1.1, h1.2, h2.1, h2.2.2 (by decide), h3.1⟩

/-- Counterexample to C3 as stated: with the verification call for
GHA-123456789-1 in flight, the number is edited to GHA-987654321-0; the
stale verified-true response is then applied anyway: the machine records
the verified flag against the new number and transitions to Step1. -/
theorem c3_stale_counterexample :
    (runTrace staleIssueTrace).pendingVerify = some "GHA-123456789-1" ∧
    (runTrace (staleIssueTrace ++ [Event.editNumber "GHA-987654321-0"])).pendingVerify
      = some "GHA-123456789-1" ∧
    (runTrace (staleIssueTrace ++ [Event.editNumber "GHA-987654321-0"])).values.number
      = "GHA-987654321-0" ∧
    "GHA-987654321-0" ≠ "GHA-123456789-1" ∧
    (runTrace staleFullTrace).currentStep = 1 ∧
    (runTrace staleFullTrace).ghanaCardVerified = true ∧
    (runTrace staleFullTrace).values.number = "GHA-987654321-0" := by decide

/-- C3 as amended: a success response to an in-flight verification call
is applied unconditionally: even when the current identity number no
longer equals the number the call was issued with, the response handler
records the verified flag and advances the step; the invalidation
performed by the number edit is overwritten. -/
theorem c3_stale_success_applied (s : WizardState) (n : String) (m : Option String)
    (hp : s.pendingVerify = some n) (hne : s.values.number ≠ n) :
    (stepFn s (Event.verifyResp (VerifyResult.ok true m))).ghanaCardVerified = true ∧
    (stepFn s (Event.verifyResp (VerifyResult.ok true m))).currentStep
      = s.currentStep + 1 ∧
    (stepFn s (Event.verifyResp (VerifyResult.ok true m))).values = s.values := by
  simp [stepFn, hp, applyVerifyResult]

/-- Witness for C3's amended statement on the concrete stale trace. -/
theorem c3_stale_success_applied_witness :
    (stepFn (runTrace (staleIssueTrace ++ [Event.editNumber "GHA-987654321-0"]))
      (Event.verifyResp (VerifyResult.ok true none))).ghanaCardVerified = true ∧
    (stepFn (runTrace (staleIssueTrace ++ [Event.editNumber "GHA-987654321-0"]))
      (Event.verifyResp (VerifyResult.ok true none))).currentStep = 1 :=
  ⟨(c3_stale_success_applied _ "GHA-123456789-1" none (by decide) (by decide)).1,
   (c3_stale_success_applied _ "GHA-123456789-1" none (by decide) (by decide)).2.1⟩

/-- Counterexample to C6 as stated: a submission call failing at
transport level with no response body surfaces the error object's own
text (the axios text Network Error), not the generic fallback (which in
the onSubmit catch is the constant Failed to complete KYC); step and
values are indeed preserved. -/
theorem c6_counterexample :
    (runTrace submitFaultTrace).error = "Network Error" ∧
    "Network Error" ≠ "Failed to complete KYC" ∧
    submissionState (runTrace submitFaultTrace) = SubState.Failed "Network Error" ∧
    (runTrace submitFaultTrace).currentStep = 2 ∧
    (runTrace submitFaultTrace).values = validValues ∧
    (runTrace submitFaultTrace).loading = false := by decide

/-- C6 as amended: when the submission call fails, the SubmissionState
becomes Failed with the message from the error body when present and
non-empty, otherwise the error's own message when non-empty, and only
then the generic fallback; the step index is unchanged (the wizard stays
on Step2), every field of FormValues is unchanged, loading is cleared so
the user can retry, and the resolution is total. -/
theorem c6_submission_failure (s : WizardState) (vals : KycFormValues)
    (rm : Option String) (em : String)
    (hp : s.pendingSubmit = some vals) (hss : s.showSuccessScreen = false) :
    submissionState (stepFn s (Event.submitResp (SubmitResult.err rm em)))
      = SubState.Failed (jsOrOpt rm (jsOrS em "Failed to complete KYC")) ∧
    (stepFn s (Event.submitResp (SubmitResult.err rm em))).currentStep = s.currentStep ∧
    (stepFn s (Event.submitResp (SubmitResult.err rm em))).values = s.values ∧
    (stepFn s (Event.submitResp (SubmitResult.err rm em))).loading = false ∧
    (stepFn s (Event.submitResp (SubmitResult.err rm em))).showSuccessScreen = false := by
  have hres : stepFn s (Event.submitResp (SubmitResult.err rm em)) =
      { s with error := jsOrOpt rm (jsOrS em "Failed to complete KYC")
               loading := false
               pendingSubmit := none } := by
    simp [stepFn, hp, applySubmitResult]
  have hne : jsOrOpt rm (jsOrS em "Failed to complete KYC") ≠ "" :=
    jsOrOpt_ne_empty _ _ (jsOrS_ne_empty _ _ (by decide))
  rw [hres]
  refine ⟨?_, rfl, rfl, rfl, hss⟩
  simp [submissionState, hss, hne]

/-- Witness for C6: the pending submission resolving with a transport
fault whose error text is Network Error lands in Failed Network Error at
step 2 with values intact. -/
theorem c6_submission_failure_witness :
    submissionState (stepFn pendingSubmitState
      (Event.submitResp (SubmitResult.err none "Network Error")))
        = SubState.Failed "Network Error" ∧
    (stepFn pendingSubmitState
      (Event.submitResp (SubmitResult.err none "Network Error"))).currentStep = 2 ∧
    (stepFn pendingSubmitState
      (Event.submitResp (SubmitResult.err none "Network Error"))).values = validValues := by
  have h := c6_submission_failure pendingSubmitState validValues none "Network Error" rfl rfl
  refine ⟨?_, h.2.1, h.2.2.1⟩
  rw [h.1]
  decide

/-
The step-gating invariant and its preservation, used for C5.
-/

lemma handleNext_eq_verify (s : WizardState)
    (he : validationSchema s.currentStep s.values = [])
    (hc : s.currentStep = 0) (hv : s.ghanaCardVerified = false) :
    handleNext s =
      { s with ghanaCardError := ""
               verifyingGhanaCard := true
               pendingVerify := some s.values.number } := by
  have he0 : validationSchema 0 s.values = [] := by rw [← hc]; exact he
  simp [handleNext, he, he0, hc, hv]

lemma handleNext_eq_advance (s : WizardState)
    (he : validationSchema s.currentStep s.values = [])
    (hc : ¬(s.currentStep = 0 ∧ s.ghanaCardVerified = false)) :
    handleNext s = { s with currentStep := s.currentStep + 1 } := by
  simp only [handleNext, he, List.length_nil, if_true]
  rw [if_neg hc]

lemma handleNext_eq_touched (s : WizardState)
    (he : validationSchema s.currentStep s.values ≠ []) :
    handleNext s = setTouchedStep s.currentStep s := by
  have hlen : (validationSchema s.currentStep s.values).length ≠ 0 := by
    intro h0
    exact he (List.length_eq_zero.mp h0)
  simp [handleNext, hlen]

lemma invQ_init : InvQ initState := by
  refine ⟨rfl, ?_, ?_, ?_, ?_, rfl, ?_⟩ <;> simp [initState]

lemma invQ_step (s : WizardState) (e : Event) (h : InvQ s)
    (hq : isStep0Edit e = true → s.verifyingGhanaCard = false) :
    InvQ (stepFn s e) := by
  obtain ⟨i1, i2, i3, i4, i5, i6, i7⟩ := h
  cases e with
  | clickNext =>
      simp only [stepFn]
      split_ifs with hg
      · obtain ⟨hss, hlt, hl, hvg⟩ := hg
        have hpvnone : s.pendingVerify = none := by
          rw [hvg] at i1
          exact (Option.not_isSome_iff_eq_none.mp (by rw [← i1]; decide))
        by_cases he : validationSchema s.currentStep s.values = []
        · by_cases hc : s.currentStep = 0 ∧ s.ghanaCardVerified = false
          · rw [handleNext_eq_verify s he hc.1 hc.2]
            rw [hc.1] at he
            refine ⟨rfl, ?_, ?_, ?_, ?_, i6, i7⟩
            · intro n hn
              exact ⟨hc.1, he⟩
            · intro hge
              exact he
            · intro hge
              rw [hc.1] at hge
              omega
            · exact i5
          · rw [handleNext_eq_advance s he hc]
            refine ⟨i1, ?_, ?_, ?_, ?_, i6, i7⟩
            · intro n hn
              have hn' : s.pendingVerify = some n := hn
              rw [hpvnone] at hn'
              cases hn'
            · intro hge
              have hge' : 1 ≤ s.currentStep + 1 := hge
              show validationSchema 0 s.values = []
              rcases Nat.lt_or_ge s.currentStep 1 with h1 | h1
              · have h0 : s.currentStep = 0 := by omega
                rw [h0] at he
                exact he
              · exact i3 h1
            · intro hge
              have hge' : 2 ≤ s.currentStep + 1 := hge
              show validationSchema 1 s.values = []
              have hone : s.currentStep = 1 := by omega
              rw [hone] at he
              exact he
            · show s.currentStep + 1 ≤ 2
              omega
        · rw [handleNext_eq_touched s he]
          obtain ⟨f1, f2, f3, f4, f5, f6, f7, f8, f9⟩ :=
            setTouchedStep_fields s.currentStep s
          refine ⟨?_, ?_, ?_, ?_, ?_, ?_, ?_⟩
          · rw [f4, f5]; exact i1
          · intro n hn
            rw [f5] at hn
            rw [f2, f1]
            exact i2 n hn
          · intro hge
            rw [f2] at hge
            rw [f1]
            exact i3 hge
          · intro hge
            rw [f2] at hge
            rw [f1]
            exact i4 hge
          · rw [f2]; exact i5
          · rw [f3, f6]; exact i6
          · intro p hp
            rw [f6] at hp
            exact i7 p hp
      · exact ⟨i1, i2, i3, i4, i5, i6, i7⟩
  | verifyResp r =>
      simp only [stepFn]
      cases hp : s.pendingVerify with
      | none => exact ⟨i1, i2, i3, i4, i5, i6, i7⟩
      | some n =>
          obtain ⟨hs0, hv0⟩ := i2 n hp
          cases r with
          | ok verified m =>
              cases verified <;>
                simp only [applyVerifyResult] <;>
                  refine ⟨rfl, ?_, ?_, ?_, ?_, i6, i7⟩ <;>
                    simp [hs0, hv0, i6, i7] <;> intro hge <;> omega
          | err rm em =>
              simp only [applyVerifyResult]
              refine ⟨rfl, ?_, ?_, ?_, ?_, i6, i7⟩ <;>
                simp [hs0, hv0] <;> intro hge <;> omega
  | clickBack =>
      simp only [stepFn]
      split_ifs with hg
      · unfold handleBack
        simp only [Nat.zero_max]
        refine ⟨i1, ?_, ?_, ?_, ?_, i6, i7⟩
        · intro n hn
          have hn' : s.pendingVerify = some n := hn
          obtain ⟨hs0, hv0⟩ := i2 n hn'
          refine ⟨?_, hv0⟩
          show s.currentStep - 1 = 0
          omega
        · intro hge
          have hge' : 1 ≤ s.currentStep - 1 := hge
          show validationSchema 0 s.values = []
          exact i3 (by omega)
        · intro hge
          have hge' : 2 ≤ s.currentStep - 1 := hge
          exact absurd i5 (by omega)
        · show s.currentStep - 1 ≤ 2
          omega
      · exact ⟨i1, i2, i3, i4, i5, i6, i7⟩
  | clickSubmit =>
      simp only [stepFn]
      split_ifs with hg
      · obtain ⟨hss, h2, hl⟩ := hg
        unfold handleSubmit
        by_cases he : validationSchema s.currentStep s.values = []
        · rw [if_pos (by simpa using List.length_eq_zero.mpr he)]
          unfold startSubmit
          refine ⟨i1, ?_, i3, i4, i5, rfl, ?_⟩
          · intro n hn
            have := (i2 n hn).1
            omega
          · intro p hp
            simp only [Option.some.injEq] at hp
            subst hp
            rw [h2] at he
            exact ⟨i3 (by omega), i4 (by omega), he⟩
        · rw [if_neg (by simpa using fun hh => he (List.length_eq_zero.mp hh))]
          exact ⟨i1, i2, i3, i4, i5, i6, i7⟩
      · exact ⟨i1, i2, i3, i4, i5, i6, i7⟩
  | submitResp r =>
      simp only [stepFn]
      cases hp : s.pendingSubmit with
      | none => exact ⟨i1, i2, i3, i4, i5, i6, i7⟩
      | some vals =>
          cases r with
          | ok msg fn =>
              simp only [applySubmitResult]
              exact ⟨i1, i2, i3, i4, i5, rfl, fun p hp' => by cases hp'⟩
          | err rm em =>
              simp only [applySubmitResult]
              exact ⟨i1, i2, i3, i4, i5, rfl, fun p hp' => by cases hp'⟩
  | editNumber n =>
      simp only [stepFn]
      split_ifs with hg
      · obtain ⟨hss, h0⟩ := hg
        have hvg : s.verifyingGhanaCard = false := hq rfl
        have hpvnone : s.pendingVerify = none := by
          rw [hvg] at i1
          exact (Option.not_isSome_iff_eq_none.mp (by rw [← i1]; decide))
        refine ⟨?_, ?_, ?_, ?_, i5, i6, i7⟩
        · rw [hvg, hpvnone]; rfl
        · intro n' hn'
          rw [hpvnone] at hn'
          cases hn'
        · intro hge
          rw [h0] at hge
          omega
        · intro hge
          rw [h0] at hge
          omega
      · exact ⟨i1, i2, i3, i4, i5, i6, i7⟩
  | setFront f =>
      simp only [stepFn]
      split_ifs with hg
      · obtain ⟨hss, h0⟩ := hg
        have hvg : s.verifyingGhanaCard = false := hq rfl
        have hpvnone : s.pendingVerify = none := by
          rw [hvg] at i1
          exact (Option.not_isSome_iff_eq_none.mp (by rw [← i1]; decide))
        refine ⟨i1, ?_, ?_, ?_, i5, i6, i7⟩
        · intro n' hn'
          rw [hpvnone] at hn'
          cases hn'
        · intro hge
          rw [h0] at hge
          omega
        · intro hge
          rw [h0] at hge
          omega
      · exact ⟨i1, i2, i3, i4, i5, i6, i7⟩
  | setBack f =>
      simp only [stepFn]
      split_ifs with hg
      · obtain ⟨hss, h0⟩ := hg
        have hvg : s.verifyingGhanaCard = false := hq rfl
        have hpvnone : s.pendingVerify = none := by
          rw [hvg] at i1
          exact (Option.not_isSome_iff_eq_none.mp (by rw [← i1]; decide))
        refine ⟨i1, ?_, ?_, ?_, i5, i6, i7⟩
        · intro n' hn'
          rw [hpvnone] at hn'
          cases hn'
        · intro hge
          rw [h0] at hge
          omega
        · intro hge
          rw [h0] at hge
          omega
      · exact ⟨i1, i2, i3, i4, i5, i6, i7⟩
  | setMomoNumber n =>
      simp only [stepFn]
      split_ifs with hg
      · obtain ⟨hss, h1⟩ := hg
        refine ⟨i1, ?_, ?_, ?_, i5, i6, i7⟩
        · intro n' hn'
          have := (i2 n' hn').1
          omega
        · intro hge
          rw [vs0_ignores_momo]
          exact i3 hge
        · intro hge
          rw [h1] at hge
          omega
      · exact ⟨i1, i2, i3, i4, i5, i6, i7⟩
  | setSelfie f =>
      simp only [stepFn]
      split_ifs with hg
      · obtain ⟨hss, h2⟩ := hg
        refine ⟨i1, ?_, ?_, ?_, i5, i6, i7⟩
        · intro n' hn'
          have := (i2 n' hn').1
          omega
        · intro hge
          rw [vs0_ignores_selfie]
          exact i3 hge
        · intro hge
          rw [vs1_ignores_selfie]
          exact i4 hge
      · exact ⟨i1, i2, i3, i4, i5, i6, i7⟩

lemma reachQ_inv (s : WizardState) (hr : ReachQ s) : InvQ s := by
  induction hr with
  | init => exact invQ_init
  | next s e hs hq ih => exact invQ_step s e ih hq

/-- Counterexample to C5 as stated: along the race trace, the number is
edited to the invalid value BAD while the verification call is in flight;
the stale success still advances the wizard, which reaches Step2 and
issues the submission call from a state whose step-0 validator returns a
non-empty mapping. -/
theorem c5_counterexample :
    (runTrace raceSubmitTrace).pendingSubmit.isSome = true ∧
    (runTrace raceSubmitTrace).values.number = "BAD" ∧
    validationSchema 0 (runTrace raceSubmitTrace).values ≠ [] := by decide

/-- C5 as amended: in every state reachable without editing a step-0
field while a verification call is in flight, whenever pressing the
submit control issues the remote submission call, the payload it carries
satisfies all three steps' validators (submission itself re-validates
only the final step; the earlier steps hold by the gating invariant);
without that no-stale-edit proviso the property fails, as the
counterexample shows. -/
theorem c5_submission_validity (s : WizardState) (p : KycFormValues)
    (hr : ReachQ s)
    (hp : (stepFn s Event.clickSubmit).pendingSubmit = some p) :
    validationSchema 0 p = [] ∧ validationSchema 1 p = [] ∧
    validationSchema 2 p = [] := by
  have hi : InvQ (stepFn s Event.clickSubmit) :=
    invQ_step s Event.clickSubmit (reachQ_inv s hr) (by intro h; cases h)
  exact hi.2.2.2.2.2.2 p hp

/-- Witness for C5 along a quiescent run of the wizard: completing the
three steps with the valid test vector and submitting issues a payload
satisfying all three validators. -/
theorem c5_submission_validity_witness :
    validationSchema 0 validValues = [] ∧ validationSchema 1 validValues = [] ∧
    validationSchema 2 validValues = [] := by
  have h0 : ReachQ initState := ReachQ.init
  have h1 := ReachQ.next _ (Event.editNumber "GHA-123456789-1") h0 (fun _ => by decide)
  have h2 := ReachQ.next _ (Event.setFront (some 1)) h1 (fun _ => by decide)
  have h3 := ReachQ.next _ (Event.setBack (some 2)) h2 (fun _ => by decide)
  have h4 := ReachQ.next _ Event.clickNext h3 (by intro h; cases h)
  have h5 := ReachQ.next _ (Event.verifyResp (VerifyResult.ok true none)) h4
    (by intro h; cases h)
  have h6 := ReachQ.next _ (Event.setMomoNumber "244000000") h5 (by intro h; cases h)
  have h7 := ReachQ.next _ Event.clickNext h6 (by intro h; cases h)
  have h8 := ReachQ.next _ (Event.setSelfie (some 3)) h7 (by intro h; cases h)
  exact c5_submission_validity _ validValues h8 (by decide)

end FormsCapital
